import Mathlib

/-!
Verification development for the `dbkp` backup/restore tool.

The definitions below are a shallow embedding of the two core source files:
  - `src/core/src/storage/provider.rs` (storage listing / retention),
  - `src/core/src/databases/postgres/connection.rs` (PostgreSQL connection,
    backup and restore orchestration).

External effects (the opendal operator, the filesystem, subprocesses, the
database server) are modelled as explicit inputs; machine integers are
modelled as `Nat`/`Int` (no overflow is relevant to the properties below);
fallible operations return `Except String`.
-/

namespace Dbkp

/-! ## Filename timestamp extraction (crate `common`)

`extract_timestamp_from_filename` lives in `src/core/src/common`, which is not
part of the provided sources; it is modelled from the spec below. -/

/-- Interpret a digit run as a natural number. -/
def digitsToNat (cs : List Char) : Nat :=
  cs.foldl (fun n c => n * 10 + (c.toNat - 48)) 0

/-- Accumulator-based splitting of a character list into maximal digit runs. -/
def digitRunsAux : List Char → List Char → List (List Char)
  | [], acc => if acc.isEmpty then [] else [acc.reverse]
  | c :: cs, acc =>
    if c.isDigit then digitRunsAux cs (c :: acc)
    else if acc.isEmpty then digitRunsAux cs []
    else acc.reverse :: digitRunsAux cs []

/-- Maximal digit runs occurring in a string. -/
def digitRuns (s : String) : List (List Char) :=
  digitRunsAux s.toList []

/-- Days since the Unix epoch of a civil date (proleptic Gregorian).
All intermediate divisions have the shape used by the standard
days-from-civil algorithm; for the 4-digit years produced by the filename
convention every division is exact or has non-negative operands. -/
def daysFromCivil (y m d : Int) : Int :=
  let yy := if m ≤ 2 then y - 1 else y
  let era := (if 0 ≤ yy then yy else yy - 399) / 400
  let yoe := yy - era * 400
  let mp := (m + 9) % 12
  let doy := (153 * mp + 2) / 5 + d - 1
  let doe := yoe * 365 + yoe / 4 - yoe / 100 + doy
  era * 146097 + doe - 719468

/-- Seconds since the Unix epoch of a `YYYY-MM-DD hh:mm:ss` field set, with
the field validation a datetime parse performs; `none` on invalid fields. -/
def tsOfFields (y mo d h mi s : Nat) : Option Int :=
  if 1 ≤ mo ∧ mo ≤ 12 ∧ 1 ≤ d ∧ d ≤ 31 ∧ h ≤ 23 ∧ mi ≤ 59 ∧ s ≤ 59 then
    some (daysFromCivil (y : Int) (mo : Int) (d : Int) * 86400
      + (h : Int) * 3600 + (mi : Int) * 60 + (s : Int))
  else none

/-- Modelled from the spec: `extract_timestamp_from_filename` (crate
`common`, not under `src/`). Per spec sections 4.4 and 8, backup artifact
names embed a sortable creation timestamp as a 14-digit `YYYYMMDDHHMMSS`
component (scenario names such as `a_20240101000000.sql`); the routine
parses that component from the filename, returning seconds since the Unix
epoch, and fails when no such component exists or its fields are invalid. -/
def extract_timestamp_from_filename (name : String) : Option Int :=
  match (digitRuns name).find? (fun run => run.length == 14) with
  | some run =>
    tsOfFields (digitsToNat (run.take 4)) (digitsToNat ((run.drop 4).take 2))
      (digitsToNat ((run.drop 6).take 2)) (digitsToNat ((run.drop 8).take 2))
      (digitsToNat ((run.drop 10).take 2)) (digitsToNat ((run.drop 12).take 2))
  | none => none

namespace Storage

/-! ## Storage data model (`src/core/src/storage/provider.rs`) -/

/-- `Entry::metadata` fields used by the provider (`storage::Entry`). -/
structure EntryMetadata where
  name : String
  is_file : Bool
  content_length : Nat
  last_modified : Option Int
  deriving DecidableEq

/-- One listed storage object (`storage::Entry`). -/
structure Entry where
  path : String
  metadata : EntryMetadata
  deriving DecidableEq

/-- `LocalStorageConfig`. -/
structure LocalStorageConfig where
  id : String
  name : String
  location : String

/-- `S3StorageConfig`. -/
structure S3StorageConfig where
  id : String
  name : String
  region : String
  endpoint : Option String
  bucket : String
  access_key : String
  secret_key : String
  location : String

/-- `StorageConfig`. -/
inductive StorageConfig where
  | Local (config : LocalStorageConfig)
  | S3 (config : S3StorageConfig)

/-- `ListOptions`. -/
structure ListOptions where
  latest_only : Option Bool
  limit : Option Nat

/-- `StorageProvider::get_content_length`: the local backend re-stats the
filesystem (modelled by `fsLen`, `none` meaning a stat failure, mapped to 0
as in the source); every other backend trusts the listing metadata. -/
def get_content_length (cfg : StorageConfig) (fsLen : String → Option Nat)
    (e : Entry) : Nat :=
  match cfg with
  | .Local c => (fsLen (c.location ++ "/" ++ e.path)).getD 0
  | .S3 _ => e.metadata.content_length

/-- The per-entry rewrite done in `list_with_options`: the entry with its
`content_length` replaced by the resolved length. -/
def resolveEntry (cfg : StorageConfig) (fsLen : String → Option Nat)
    (e : Entry) : Entry :=
  { e with metadata := { e.metadata with content_length := get_content_length cfg fsLen e } }

/-- Effective ordering timestamp of an entry: the timestamp parsed from the
filename, or `DateTime::default()` (the Unix epoch, i.e. 0 seconds) when it
cannot be parsed — `unwrap_or(DateTime::default())` in the source. -/
def effTs (e : Entry) : Int :=
  (extract_timestamp_from_filename e.metadata.name).getD 0

/-- Stable insertion (descending by `effTs`); together with `sortByTsDesc`
this models the stable `sort_by(|a, b| b_ts.cmp(&a_ts))` of the source
(Rust `sort_by` is a stable sort, and a stable sort is determined
extensionally by the comparator). -/
def insertByTs (a : Entry) : List Entry → List Entry
  | [] => [a]
  | b :: bs => if effTs b ≤ effTs a then a :: b :: bs else b :: insertByTs a bs

/-- Stable sort, descending by effective timestamp. -/
def sortByTsDesc (l : List Entry) : List Entry :=
  l.foldr insertByTs []

/-- The file entries surviving the listing window: the backend listing capped
at `limit`, content lengths resolved, non-file entries discarded — the value
of `filtered_results` in `list_with_options` before sorting. -/
def listedFiles (cfg : StorageConfig) (fsLen : String → Option Nat)
    (entries : List Entry) (limit : Nat) : List Entry :=
  ((entries.take limit).map (resolveEntry cfg fsLen)).filter
    (fun e => e.metadata.is_file)

/-- `StorageProvider::list_with_options`. `entries` is the result of the
backend listing (an external effect); the rest follows the source: default
limit 1000, default `latest_only` false, filter to files, sort descending by
embedded timestamp, and under `latest_only` return the first entry or the
typed `No entry found` error. -/
def list_with_options (cfg : StorageConfig) (fsLen : String → Option Nat)
    (entries : List Entry) (options : ListOptions) : Except String (List Entry) :=
  let limit := options.limit.getD 1000
  let latest_only := options.latest_only.getD false
  let sorted := sortByTsDesc (listedFiles cfg fsLen entries limit)
  if latest_only then
    match sorted with
    | e :: _ => .ok [e]
    | [] => .error "No entry found"
  else .ok sorted

/-- `StorageProvider::list`. -/
def list (cfg : StorageConfig) (fsLen : String → Option Nat)
    (entries : List Entry) : Except String (List Entry) :=
  list_with_options cfg fsLen entries { latest_only := none, limit := none }

/-- The `for backup in backups` loop of `cleanup`: returns the
`(deleted_count, deleted_size)` statistics and the list of paths actually
deleted (the side-effect trace; empty under `dry_run`). Entries whose
timestamp cannot be extracted are skipped with a warning. -/
def cleanupLoop (cutoff : Int) (dry_run : Bool) : List Entry → (Nat × Nat) × List String
  | [] => ((0, 0), [])
  | b :: rest =>
    match extract_timestamp_from_filename b.metadata.name with
    | some timestamp =>
      if timestamp < cutoff then
        let r := cleanupLoop cutoff dry_run rest
        ((r.1.1 + 1, r.1.2 + b.metadata.content_length),
          if dry_run then r.2 else b.path :: r.2)
      else cleanupLoop cutoff dry_run rest
    | none => cleanupLoop cutoff dry_run rest

/-- `StorageProvider::cleanup`: lists all entries, computes
`cutoff = now − retention_days · 86400` seconds, and runs the retention
loop. `now` is the current wall clock in seconds since the epoch. -/
def cleanup (cfg : StorageConfig) (fsLen : String → Option Nat)
    (entries : List Entry) (now : Int) (retention_days : Nat) (dry_run : Bool) :
    Except String ((Nat × Nat) × List String) :=
  match list cfg fsLen entries with
  | .error e => .error e
  | .ok backups =>
    let cutoff : Int := now - (retention_days : Int) * 86400
    .ok (cleanupLoop cutoff dry_run backups)

end Storage

namespace Pg

/-! ## PostgreSQL connection (`src/core/src/databases/postgres/connection.rs`) -/

/-- `SshConfig` (tunnel configuration attached to a `DatabaseConfig`). -/
structure SshConfig where
  host : String
  username : String
  key_path : Option String
  deriving DecidableEq

/-- `DatabaseConfig` fields used by the PostgreSQL connection. -/
structure DatabaseConfig where
  host : String
  port : Nat
  database : String
  username : String
  password : Option String
  ssh_tunnel : Option SshConfig
  deriving DecidableEq

/-- Modelled from the spec: `SshTunnel` (module `databases::ssh_tunnel`, not
under `src/`). Per spec section 4.2 it binds a local listener on an
ephemeral port and forwards to the configured remote `host:port`; the
original remote endpoint is retained only inside the tunnel. `local_port`
is the ephemeral port the OS assigned. -/
structure SshTunnel where
  remote_host : String
  remote_port : Nat
  local_port : Nat
  deriving DecidableEq

/-- The configuration rewrite performed by `PostgreSqlConnection::new`
(lines 32-52): when an SSH tunnel is configured, a tunnel to the original
remote `host:port` is opened (its ephemeral local port is the external
input `tunnel_local_port`) and the effective config's host and port are
overwritten with `localhost` and that local port; otherwise the config is
untouched. Returns the effective config and the tunnel kept alive by the
connection. -/
def newEffectiveConfig (config : DatabaseConfig) (tunnel_local_port : Nat) :
    DatabaseConfig × Option SshTunnel :=
  match config.ssh_tunnel with
  | some _ =>
    let tunnel : SshTunnel :=
      { remote_host := config.host, remote_port := config.port,
        local_port := tunnel_local_port }
    ({ config with host := "localhost", port := tunnel.local_port }, some tunnel)
  | none => (config, none)

/-- The `PgConnectOptions` the client pool of `PostgreSqlConnection::new` is
opened with. -/
structure PgConnectOptions where
  host : String
  username : String
  database : String
  port : Nat
  password : Option String
  deriving DecidableEq

/-- Lines 54-63 of `new`: connect options are built from the (effective)
config, with the database name fixed to the maintenance database
`postgres`, and the password applied only when configured. -/
def mkConnectOptions (config : DatabaseConfig) : PgConnectOptions :=
  { host := config.host, username := config.username, database := "postgres",
    port := config.port, password := config.password }

/-- Outcome of one `sqlx` query against the pool (an external effect). -/
inductive QueryOutcome where
  | ok
  | err (msg : String)
  deriving DecidableEq

/-- `PostgreSqlConnection::test`: runs `SELECT 1` on the pool; success maps
to `true`, an ordinary connectivity failure maps to the typed
`Connection test failed` error value — the function is total, it never
panics. `db` gives the outcome of executing a query text on the pool. -/
def test (db : String → QueryOutcome) : Except String Bool :=
  match db "SELECT 1" with
  | .ok => .ok true
  | .err e => .error ("Connection test failed: " ++ e)

/-- The argument list `backup` adds to `pg_dump` (lines 140-151). -/
def pg_dump_args : List String :=
  ["--format=plain", "--encoding=UTF8", "--schema=*", "--clean", "--if-exists",
   "--no-owner", "--blobs", "--exclude-schema=information_schema",
   "--exclude-schema=pg_catalog", "--exclude-schema=pg_toast",
   "--exclude-schema=pg_temp*", "--exclude-schema=pg_toast_temp*"]

/-- Split a byte stream into the successive chunks a read loop with a
16384-byte buffer produces; fuel-indexed so the definition is structural
(any fuel at least the stream length gives the same result). -/
def chunksOf16384 : Nat → List Nat → List (List Nat)
  | _, [] => []
  | 0, l => [l]
  | fuel + 1, l => l.take 16384 :: chunksOf16384 fuel (l.drop 16384)

/-- The 16 KiB chunking of a byte stream. -/
def chunk16384 (l : List Nat) : List (List Nat) :=
  chunksOf16384 l.length l

/-- The stdout-draining loop of `backup` (lines 164-178): writes the chunks
read from the child to the sink in order; `sinkFail = some (j, e)` means the
j-th `write_all` fails with message `e` (the sink is an external effect).
Returns the loop result and the chunks successfully written; a failing
write aborts the loop immediately with the typed write error. -/
def drainBackup (sinkFail : Option (Nat × String)) (i : Nat) :
    List (List Nat) → Except String Unit × List (List Nat)
  | [] => (.ok (), [])
  | c :: rest =>
    match sinkFail with
    | some (j, e) =>
      if i = j then (.error ("Failed to write backup data: " ++ e), [])
      else
        let r := drainBackup sinkFail (i + 1) rest
        (r.1, c :: r.2)
    | none =>
      let r := drainBackup sinkFail (i + 1) rest
      (r.1, c :: r.2)

/-- External effects of one `backup` run: spawn outcome, the bytes the child
writes to stdout, an optional read error terminating the pipe instead of
EOF, the sink's failing write (if any), and the child's exit status and
captured stderr. -/
structure BackupEnv where
  spawn_err : Option String
  stream : List Nat
  read_err : Option String
  sink_fail : Option (Nat × String)
  exit_success : Bool
  stderr : String

/-- `PostgreSqlConnection::backup` (lines 137-201): spawn `pg_dump`, drain
its stdout into the sink in 16 KiB chunks until end-of-stream, then wait;
on a non-zero exit read the full captured stderr and return it as the
failure detail. Returns the result together with the chunks actually
written to the sink. -/
def backup (env : BackupEnv) : Except String Unit × List (List Nat) :=
  match env.spawn_err with
  | some e => (.error ("Failed to start pg_dump: " ++ e), [])
  | none =>
    let r := drainBackup env.sink_fail 0 (chunk16384 env.stream)
    match r.1 with
    | .error e => (.error e, r.2)
    | .ok _ =>
      match env.read_err with
      | some e => (.error ("Failed to read from pg_dump: " ++ e), r.2)
      | none =>
        if env.exit_success then (.ok (), r.2)
        else (.error ("pg_dump failed: " ++ env.stderr), r.2)

/-- `RestoreOptions`. -/
structure RestoreOptions where
  drop_database_first : Bool
  deriving DecidableEq

/-- The session-termination command text built in `restore_with_options`
(lines 229-235), with the configured database name embedded verbatim inside
single quotes. -/
def terminate_cmd_text (database : String) : String :=
  "SELECT pg_terminate_backend(pg_stat_activity.pid) \n                FROM pg_stat_activity \n                WHERE pg_stat_activity.datname = '" ++ database
    ++ "' \n                AND pid <> pg_backend_pid();"

/-- The `DROP DATABASE` command text (lines 265-268), database name embedded
verbatim inside double quotes. -/
def drop_cmd_text (database : String) : String :=
  "DROP DATABASE IF EXISTS \"" ++ database ++ "\";"

/-- The `CREATE DATABASE` command text (line 298), database name embedded
verbatim inside double quotes. -/
def create_cmd_text (database : String) : String :=
  "CREATE DATABASE \"" ++ database ++ "\";"

/-- Result of one completed subprocess (`std::process::Output`): success
flag, exit code (`code().unwrap_or(-1)` already applied), stdout, stderr. -/
structure CmdOutput where
  success : Bool
  code : Int
  stdout : String
  stderr : String

/-- External effects of one `restore_with_options` run: the outcome of an
administrative `psql -c <text>` invocation keyed by the command text, the
failing stdin write of the final `psql` child (if any), and that child's
final output. -/
structure RestoreEnv where
  runPsql : String → CmdOutput
  stdin_fail : Option (Nat × String)
  final : CmdOutput

/-- The stdin-streaming loop of `restore_with_options` (lines 339-353):
source chunks are written to the child's stdin in order; a failing write
aborts with the underlying error (propagated raw by `?` in the source). -/
def drainStdin (stdinFail : Option (Nat × String)) (i : Nat) :
    List (List Nat) → Except String Unit
  | [] => .ok ()
  | _ :: rest =>
    match stdinFail with
    | some (j, e) => if i = j then .error e else drainStdin stdinFail (i + 1) rest
    | none => drainStdin stdinFail (i + 1) rest

/-- `PostgreSqlConnection::restore_with_options` (lines 213-374): terminate
other sessions against the target database (checked); if
`drop_database_first`, drop then recreate the target database as two
independently checked administrative commands; then spawn `psql` against
the target database, stream the source into its stdin in 16 KiB chunks,
close stdin, wait, and on non-zero exit return both captured stderr and
stdout as diagnostic detail. -/
def restore_with_options (cfg : DatabaseConfig) (env : RestoreEnv)
    (source : List Nat) (options : RestoreOptions) : Except String Unit :=
  let r1 := env.runPsql (terminate_cmd_text cfg.database)
  if ¬ r1.success then
    .error ("Failed to terminate database connections with exit code "
      ++ toString r1.code ++ ".\nError details: " ++ r1.stderr.trim)
  else
    let afterDrop : Except String Unit :=
      if options.drop_database_first then
        let r2 := env.runPsql (drop_cmd_text cfg.database)
        if ¬ r2.success then
          .error ("Failed to drop database with exit code " ++ toString r2.code
            ++ ".\nError: " ++ r2.stderr.trim)
        else
          let r3 := env.runPsql (create_cmd_text cfg.database)
          if ¬ r3.success then
            .error ("Failed to create database with exit code " ++ toString r3.code
              ++ ".\nError: " ++ r3.stderr.trim)
          else .ok ()
      else .ok ()
    match afterDrop with
    | .error e => .error e
    | .ok _ =>
      match drainStdin env.stdin_fail 0 (chunk16384 source) with
      | .error e => .error e
      | .ok _ =>
        if ¬ env.final.success then
          .error ("psql restore failed with exit code " ++ toString env.final.code
            ++ ".\nStderr: " ++ env.final.stderr.trim ++ "\nStdout: "
            ++ env.final.stdout.trim)
        else .ok ()

/-- `PostgreSqlConnection::restore` (lines 203-211): delegates to
`restore_with_options` with `drop_database_first: true`. -/
def restore (cfg : DatabaseConfig) (env : RestoreEnv) (source : List Nat) :
    Except String Unit :=
  restore_with_options cfg env source { drop_database_first := true }

/-- The canonical PostgreSQL quoted-identifier spelling of a name: the name
wrapped in double quotes with every interior double quote doubled. A command
delimits `name` as a single quoted identifier exactly when it embeds this
spelling. -/
def quoteIdent (s : String) : String :=
  "\"" ++ (s.toList.foldr
    (fun c acc => if c = '"' then '"' :: '"' :: acc else c :: acc) []).asString
    ++ "\""

end Pg

/-! ## Helper lemmas -/

namespace Storage

theorem mem_insertByTs {x a : Entry} {l : List Entry} :
    x ∈ insertByTs a l ↔ x = a ∨ x ∈ l := by
  induction l with
  | nil => simp [insertByTs]
  | cons b bs ih =>
    simp only [insertByTs]
    split
    · simp [List.mem_cons]
    · simp only [List.mem_cons, ih]
      tauto

theorem pairwise_insertByTs {a : Entry} {l : List Entry}
    (h : l.Pairwise (fun p q => effTs q ≤ effTs p)) :
    (insertByTs a l).Pairwise (fun p q => effTs q ≤ effTs p) := by
  induction l with
  | nil => simp [insertByTs]
  | cons b bs ih =>
    rcases List.pairwise_cons.mp h with ⟨hb, ht⟩
    simp only [insertByTs]
    split
    next hba =>
      refine List.pairwise_cons.mpr ⟨?_, h⟩
      intro x hx
      rcases List.mem_cons.mp hx with rfl | hx
      · exact hba
      · exact le_trans (hb x hx) hba
    next hba =>
      refine List.pairwise_cons.mpr ⟨?_, ih ht⟩
      intro x hx
      rcases mem_insertByTs.mp hx with rfl | hx
      · exact le_of_not_le hba
      · exact hb x hx

theorem sortByTsDesc_cons (a : Entry) (l : List Entry) :
    sortByTsDesc (a :: l) = insertByTs a (sortByTsDesc l) := rfl

theorem mem_sortByTsDesc {x : Entry} {l : List Entry} :
    x ∈ sortByTsDesc l ↔ x ∈ l := by
  induction l with
  | nil => simp [sortByTsDesc]
  | cons a l ih =>
    rw [sortByTsDesc_cons]
    simp only [mem_insertByTs, List.mem_cons, ih]

theorem pairwise_sortByTsDesc (l : List Entry) :
    (sortByTsDesc l).Pairwise (fun p q => effTs q ≤ effTs p) := by
  induction l with
  | nil => simp [sortByTsDesc]
  | cons a l ih =>
    rw [sortByTsDesc_cons]
    exact pairwise_insertByTs ih

theorem insertByTs_ne_nil (a : Entry) (l : List Entry) : insertByTs a l ≠ [] := by
  cases l with
  | nil => simp [insertByTs]
  | cons b bs =>
    simp only [insertByTs]
    split <;> simp

theorem sortByTsDesc_eq_nil {l : List Entry} : sortByTsDesc l = [] ↔ l = [] := by
  cases l with
  | nil => simp [sortByTsDesc]
  | cons a l =>
    rw [sortByTsDesc_cons]
    simp [insertByTs_ne_nil]

theorem head_sortByTsDesc_max {l : List Entry} {e : Entry} {rest : List Entry}
    (h : sortByTsDesc l = e :: rest) : ∀ x ∈ l, effTs x ≤ effTs e := by
  intro x hx
  have hx2 : x ∈ e :: rest := by
    rw [← h]
    exact mem_sortByTsDesc.mpr hx
  rcases List.mem_cons.mp hx2 with rfl | hx2
  · exact le_refl _
  · have hp := pairwise_sortByTsDesc l
    rw [h] at hp
    exact (List.pairwise_cons.mp hp).1 x hx2

theorem cleanupLoop_stats_dry_irrel (cutoff : Int) (l : List Entry) (d e : Bool) :
    (cleanupLoop cutoff d l).1 = (cleanupLoop cutoff e l).1 := by
  induction l with
  | nil => rfl
  | cons b rest ih =>
    simp only [cleanupLoop]
    cases extract_timestamp_from_filename b.metadata.name with
    | none => exact ih
    | some ts =>
      by_cases hc : ts < cutoff
      · simp only [if_pos hc, ih]
      · simp only [if_neg hc, ih]

theorem cleanupLoop_dry_deleted (cutoff : Int) (l : List Entry) :
    (cleanupLoop cutoff true l).2 = [] := by
  induction l with
  | nil => rfl
  | cons b rest ih =>
    simp only [cleanupLoop]
    cases extract_timestamp_from_filename b.metadata.name with
    | none => exact ih
    | some ts =>
      by_cases hc : ts < cutoff
      · simp only [if_pos hc, if_true, ih]
      · simp only [if_neg hc, ih]

theorem cleanup_eq (cfg : StorageConfig) (fsLen : String → Option Nat)
    (entries : List Entry) (now : Int) (retention_days : Nat) (dry_run : Bool) :
    cleanup cfg fsLen entries now retention_days dry_run
      = .ok (cleanupLoop (now - (retention_days : Int) * 86400) dry_run
          (sortByTsDesc (listedFiles cfg fsLen entries 1000))) := rfl

end Storage

namespace Pg

theorem chunksOf16384_fuel_irrel :
    ∀ (f g : Nat) (l : List Nat), l.length ≤ f → l.length ≤ g →
      chunksOf16384 f l = chunksOf16384 g l := by
  intro f
  induction f with
  | zero =>
    intro g l hf _
    have : l = [] := List.eq_nil_of_length_eq_zero (Nat.le_zero.mp hf)
    subst this
    cases g <;> rfl
  | succ f ih =>
    intro g l hf hg
    cases l with
    | nil => cases g <;> rfl
    | cons c cs =>
      cases g with
      | zero => simp at hg
      | succ g =>
        simp only [chunksOf16384]
        congr 1
        apply ih
        · simp only [List.length_drop, List.length_cons] at hf ⊢
          omega
        · simp only [List.length_drop, List.length_cons] at hg ⊢
          omega

theorem chunk16384_cons (l : List Nat) (h : l ≠ []) :
    chunk16384 l = l.take 16384 :: chunk16384 (l.drop 16384) := by
  cases l with
  | nil => exact absurd rfl h
  | cons c cs =>
    show chunksOf16384 (cs.length + 1) (c :: cs) = _
    simp only [chunksOf16384]
    congr 1
    apply chunksOf16384_fuel_irrel
    · simp only [List.length_drop, List.length_cons]
      omega
    · exact le_refl _

theorem chunksOf16384_flatten :
    ∀ (f : Nat) (l : List Nat), l.length ≤ f → (chunksOf16384 f l).flatten = l := by
  intro f
  induction f with
  | zero =>
    intro l hf
    have : l = [] := List.eq_nil_of_length_eq_zero (Nat.le_zero.mp hf)
    subst this
    rfl
  | succ f ih =>
    intro l hf
    cases l with
    | nil => rfl
    | cons c cs =>
      simp only [chunksOf16384, List.flatten_cons]
      rw [ih]
      · exact List.take_append_drop _ _
      · simp only [List.length_drop, List.length_cons] at hf ⊢
        omega

theorem chunk16384_flatten (l : List Nat) : (chunk16384 l).flatten = l :=
  chunksOf16384_flatten l.length l (le_refl _)

theorem chunksOf16384_mem_length :
    ∀ (f : Nat) (l : List Nat) (c : List Nat), l.length ≤ f →
      c ∈ chunksOf16384 f l → c.length ≤ 16384 := by
  intro f
  induction f with
  | zero =>
    intro l c hf hmem
    have : l = [] := List.eq_nil_of_length_eq_zero (Nat.le_zero.mp hf)
    subst this
    simp [chunksOf16384] at hmem
  | succ f ih =>
    intro l c hf hmem
    cases l with
    | nil => simp [chunksOf16384] at hmem
    | cons x xs =>
      simp only [chunksOf16384, List.mem_cons] at hmem
      rcases hmem with rfl | hmem
      · rw [List.length_take]
        exact min_le_left _ _
      · refine ih _ _ ?_ hmem
        simp only [List.length_drop, List.length_cons] at hf ⊢
        omega

theorem chunk16384_mem_length {l c : List Nat} (h : c ∈ chunk16384 l) :
    c.length ≤ 16384 :=
  chunksOf16384_mem_length l.length l c (le_refl _) h

theorem drainBackup_none :
    ∀ (cs : List (List Nat)) (i : Nat), drainBackup none i cs = (.ok (), cs) := by
  intro cs
  induction cs with
  | nil => intro i; rfl
  | cons c rest ih =>
    intro i
    simp only [drainBackup, ih]

theorem drainBackup_some :
    ∀ (cs : List (List Nat)) (i k : Nat) (e : String),
      drainBackup (some (i + k, e)) i cs =
        if k < cs.length then
          (.error ("Failed to write backup data: " ++ e), cs.take k)
        else (.ok (), cs) := by
  intro cs
  induction cs with
  | nil =>
    intro i k e
    simp [drainBackup]
  | cons c rest ih =>
    intro i k e
    simp only [drainBackup]
    cases k with
    | zero =>
      simp [List.take]
    | succ k =>
      have hne : i ≠ i + (k + 1) := by omega
      rw [if_neg hne]
      have hik : i + (k + 1) = (i + 1) + k := by omega
      rw [hik, ih (i + 1) k e]
      by_cases hk : k < rest.length
      · rw [if_pos hk, if_pos (by simp only [List.length_cons]; omega)]
        simp [List.take_succ_cons]
      · rw [if_neg hk, if_neg (by simp only [List.length_cons]; omega)]

theorem drainBackup_some_zero (cs : List (List Nat)) (j : Nat) (e : String) :
    drainBackup (some (j, e)) 0 cs =
      if j < cs.length then
        (.error ("Failed to write backup data: " ++ e), cs.take j)
      else (.ok (), cs) := by
  have := drainBackup_some cs 0 j e
  rwa [Nat.zero_add] at this

end Pg

/-! ## Claim theorems -/

/-- Claim C2, counterexample: the claim says an entry with an unparsable
filename timestamp is never returned as the latest entry by
`list_with_options(latest_only=true)`. On a dataset whose only file entry
has an unparsable timestamp, `latest_only` nevertheless returns that entry:
the source falls back to `DateTime::default()` (the Unix epoch) rather than
a minimal sentinel, and `first()` of the non-empty sorted vector is
returned unconditionally. -/
theorem claim_C2_counterexample :
    extract_timestamp_from_filename "garbage.sql" = none ∧
    Storage.list_with_options
      (.S3 ⟨"id", "name", "region", none, "bucket", "ak", "sk", "loc"⟩)
      (fun _ => none)
      [⟨"garbage.sql", ⟨"garbage.sql", true, 100, none⟩⟩]
      ⟨some true, none⟩
      = .ok [⟨"garbage.sql", ⟨"garbage.sql", true, 100, none⟩⟩] :=
  ⟨rfl, rfl⟩

/-- Claim C2, amended: an entry whose filename-embedded timestamp cannot be
parsed is treated as the Unix-epoch default timestamp: (i) the listing is
sorted descending by effective timestamp, so such an entry sorts after
every entry with a strictly-post-epoch timestamp; (ii) when
`latest_only=true` returns an unparsable entry, no listed file entry has a
strictly-post-epoch timestamp (so an unparsable entry is never the latest
when some entry does); and (iii) `cleanup` never deletes such an entry nor
counts it in the returned statistics, regardless of retention window — the
retention loop computes the same result on the listing with unparsable
entries removed. -/
theorem claim_C2_amended :
    (∀ cfg fsLen entries opts out,
        Storage.list_with_options cfg fsLen entries opts = .ok out →
        out.Pairwise (fun a b => Storage.effTs b ≤ Storage.effTs a)) ∧
    (∀ cfg fsLen entries lim e out,
        Storage.list_with_options cfg fsLen entries ⟨some true, lim⟩ = .ok out →
        e ∈ out → extract_timestamp_from_filename e.metadata.name = none →
        ∀ x ∈ entries.take (lim.getD 1000), x.metadata.is_file = true →
          Storage.effTs x ≤ 0) ∧
    (∀ cutoff dry l,
        Storage.cleanupLoop cutoff dry l =
          Storage.cleanupLoop cutoff dry
            (l.filter
              (fun x => (extract_timestamp_from_filename x.metadata.name).isSome))) := by
  refine ⟨?_, ?_, ?_⟩
  · intro cfg fsLen entries opts out h
    simp only [Storage.list_with_options] at h
    split at h
    · split at h
      · rename_i e rest heq
        cases h
        simp
      · cases h
    · cases h
      exact Storage.pairwise_sortByTsDesc _
  · intro cfg fsLen entries lim e out h he hnone x hx hfile
    simp only [Storage.list_with_options, Option.getD_some, if_true] at h
    rcases hs : Storage.sortByTsDesc
        (Storage.listedFiles cfg fsLen entries (lim.getD 1000)) with _ | ⟨e0, rest⟩
    · rw [hs] at h
      cases h
    · rw [hs] at h
      cases h
      rcases List.mem_singleton.mp he with rfl
      have he0 : Storage.effTs e = 0 := by
        simp [Storage.effTs, hnone]
      have hxmem : Storage.resolveEntry cfg fsLen x
          ∈ Storage.listedFiles cfg fsLen entries (lim.getD 1000) := by
        refine List.mem_filter.mpr ⟨List.mem_map.mpr ⟨x, hx, rfl⟩, ?_⟩
        exact hfile
      have := Storage.head_sortByTsDesc_max hs _ hxmem
      rw [he0] at this
      exact this
  · intro cutoff dry l
    induction l with
    | nil => rfl
    | cons b rest ih =>
      simp only [Storage.cleanupLoop, List.filter_cons]
      cases hb : extract_timestamp_from_filename b.metadata.name with
      | none => simpa [hb] using ih
      | some ts =>
        simp only [hb, Option.isSome_some, if_true, Storage.cleanupLoop]
        rw [ih]

/-- Claim C2 amended, witness: concrete instances of the three parts at the
all-unparsable single-entry dataset of the counterexample. -/
theorem claim_C2_amended_witness :
    ([⟨"garbage.sql", ⟨"garbage.sql", true, 100, none⟩⟩] : List Storage.Entry).Pairwise
      (fun a b => Storage.effTs b ≤ Storage.effTs a) ∧
    Storage.effTs ⟨"garbage.sql", ⟨"garbage.sql", true, 100, none⟩⟩ ≤ 0 ∧
    Storage.cleanupLoop 0 true
        [⟨"garbage.sql", ⟨"garbage.sql", true, 100, none⟩⟩,
         ⟨"a_20240101000000.sql", ⟨"a_20240101000000.sql", true, 5, none⟩⟩] =
      Storage.cleanupLoop 0 true
        ([⟨"garbage.sql", ⟨"garbage.sql", true, 100, none⟩⟩,
          ⟨"a_20240101000000.sql", ⟨"a_20240101000000.sql", true, 5, none⟩⟩].filter
          (fun x => (extract_timestamp_from_filename x.metadata.name).isSome)) :=
  ⟨claim_C2_amended.1
      (.S3 ⟨"id", "name", "region", none, "bucket", "ak", "sk", "loc"⟩)
      (fun _ => none)
      [⟨"garbage.sql", ⟨"garbage.sql", true, 100, none⟩⟩]
      ⟨some true, none⟩
      [⟨"garbage.sql", ⟨"garbage.sql", true, 100, none⟩⟩] rfl,
    claim_C2_amended.2.1
      (.S3 ⟨"id", "name", "region", none, "bucket", "ak", "sk", "loc"⟩)
      (fun _ => none)
      [⟨"garbage.sql", ⟨"garbage.sql", true, 100, none⟩⟩]
      none ⟨"garbage.sql", ⟨"garbage.sql", true, 100, none⟩⟩
      [⟨"garbage.sql", ⟨"garbage.sql", true, 100, none⟩⟩] rfl
      (by simp) rfl ⟨"garbage.sql", ⟨"garbage.sql", true, 100, none⟩⟩
      (by simp) rfl,
    claim_C2_amended.2.2 0 true _⟩

/-- Claim C3: `cleanup(retention_days=N, dry_run=true)` reports exactly the
same `(deleted_count, deleted_bytes)` statistics as
`cleanup(retention_days=N, dry_run=false)` on the same unmodified dataset,
and the dry run performs zero deletions (its deletion trace is empty). -/
theorem claim_C3_dry_run_parity :
    ∀ cfg fsLen entries now retention_days,
      Except.map Prod.fst (Storage.cleanup cfg fsLen entries now retention_days true)
        = Except.map Prod.fst (Storage.cleanup cfg fsLen entries now retention_days false) ∧
      Except.map Prod.snd (Storage.cleanup cfg fsLen entries now retention_days true)
        = Except.ok [] := by
  intro cfg fsLen entries now retention_days
  rw [Storage.cleanup_eq, Storage.cleanup_eq]
  constructor
  · simp only [Except.map]
    rw [Storage.cleanupLoop_stats_dry_irrel _ _ true false]
  · simp only [Except.map]
    rw [Storage.cleanupLoop_dry_deleted]

/-- Claim C4, counterexample: the claim says `latest_only=true` returns the
file entry whose filename-embedded timestamp is the maximum among all file
entries. With an unparsable entry listed first and a file entry whose
embedded timestamp is exactly the Unix epoch, both entries tie at the
`DateTime::default()` fallback, the stable sort keeps the unparsable entry
first, and it is returned — not the (unique) entry with the maximal
parsable embedded timestamp. -/
theorem claim_C4_counterexample :
    extract_timestamp_from_filename "zzz.sql" = none ∧
    extract_timestamp_from_filename "a_19700101000000.sql" = some 0 ∧
    Storage.list_with_options
      (.S3 ⟨"id", "name", "region", none, "bucket", "ak", "sk", "loc"⟩)
      (fun _ => none)
      [⟨"zzz.sql", ⟨"zzz.sql", true, 1, none⟩⟩,
       ⟨"a_19700101000000.sql", ⟨"a_19700101000000.sql", true, 2, none⟩⟩]
      ⟨some true, none⟩
      = .ok [⟨"zzz.sql", ⟨"zzz.sql", true, 1, none⟩⟩] ∧
    (⟨"zzz.sql", ⟨"zzz.sql", true, 1, none⟩⟩ : Storage.Entry)
      ≠ ⟨"a_19700101000000.sql", ⟨"a_19700101000000.sql", true, 2, none⟩⟩ :=
  ⟨rfl, rfl, rfl, by decide⟩

/-- Claim C4, amended: `list_with_options(latest_only=true)` returns exactly
one entry, one of the listed file entries whose effective timestamp (the
parsed filename timestamp, or the epoch default when unparsable) is maximal
among all listed file entries; and it fails with the typed
`No entry found` error exactly when the listing window contains no file
entries. -/
theorem claim_C4_amended :
    ∀ cfg fsLen entries lim,
      (∀ out, Storage.list_with_options cfg fsLen entries ⟨some true, lim⟩ = .ok out →
        ∃ e, out = [e] ∧
          e ∈ Storage.listedFiles cfg fsLen entries (lim.getD 1000) ∧
          ∀ x ∈ Storage.listedFiles cfg fsLen entries (lim.getD 1000),
            Storage.effTs x ≤ Storage.effTs e) ∧
      (Storage.list_with_options cfg fsLen entries ⟨some true, lim⟩
          = .error "No entry found"
        ↔ Storage.listedFiles cfg fsLen entries (lim.getD 1000) = []) := by
  intro cfg fsLen entries lim
  rcases hs : Storage.sortByTsDesc
      (Storage.listedFiles cfg fsLen entries (lim.getD 1000)) with _ | ⟨e0, rest⟩
  · constructor
    · intro out h
      simp only [Storage.list_with_options, Option.getD_some, if_true, hs] at h
      cases h
    · simp only [Storage.list_with_options, Option.getD_some, if_true, hs]
      constructor
      · intro _
        exact Storage.sortByTsDesc_eq_nil.mp hs
      · intro _
        trivial
  · constructor
    · intro out h
      simp only [Storage.list_with_options, Option.getD_some, if_true, hs] at h
      cases h
      refine ⟨e0, rfl, ?_, ?_⟩
      · rw [← Storage.mem_sortByTsDesc, hs]
        exact List.mem_cons_self _ _
      · exact Storage.head_sortByTsDesc_max hs
    · simp only [Storage.list_with_options, Option.getD_some, if_true, hs]
      constructor
      · intro h
        cases h
      · intro h
        rw [h] at hs
        cases hs

/-- Claim C4 amended, witness: concrete instances of both parts, one on a
single-entry dataset and one on the empty dataset. -/
theorem claim_C4_amended_witness :
    (∃ e, ([⟨"a_20240101000000.sql", ⟨"a_20240101000000.sql", true, 7, none⟩⟩]
          : List Storage.Entry) = [e] ∧
        e ∈ Storage.listedFiles
          (.S3 ⟨"id", "name", "region", none, "bucket", "ak", "sk", "loc"⟩)
          (fun _ => none)
          [⟨"a_20240101000000.sql", ⟨"a_20240101000000.sql", true, 7, none⟩⟩]
          ((none : Option Nat).getD 1000) ∧
        ∀ x ∈ Storage.listedFiles
            (.S3 ⟨"id", "name", "region", none, "bucket", "ak", "sk", "loc"⟩)
            (fun _ => none)
            [⟨"a_20240101000000.sql", ⟨"a_20240101000000.sql", true, 7, none⟩⟩]
            ((none : Option Nat).getD 1000),
          Storage.effTs x ≤ Storage.effTs e) ∧
    (Storage.list_with_options
        (.S3 ⟨"id", "name", "region", none, "bucket", "ak", "sk", "loc"⟩)
        (fun _ => none) [] ⟨some true, none⟩
        = .error "No entry found"
      ↔ Storage.listedFiles
          (.S3 ⟨"id", "name", "region", none, "bucket", "ak", "sk", "loc"⟩)
          (fun _ => none) [] ((none : Option Nat).getD 1000) = []) :=
  ⟨(claim_C4_amended
      (.S3 ⟨"id", "name", "region", none, "bucket", "ak", "sk", "loc"⟩)
      (fun _ => none)
      [⟨"a_20240101000000.sql", ⟨"a_20240101000000.sql", true, 7, none⟩⟩]
      none).1 _ rfl,
    (claim_C4_amended
      (.S3 ⟨"id", "name", "region", none, "bucket", "ak", "sk", "loc"⟩)
      (fun _ => none) [] none).2⟩

/-- Claim C5: `test()` issues the minimal round-trip query `SELECT 1`; a
successful query yields `true`, and an ordinary connectivity failure is
reported as the typed `Connection test failed` error value (the function is
total, so no exception path exists); in particular it never returns a bare
`false`. -/
theorem claim_C5_test_roundtrip :
    ∀ db : String → Pg.QueryOutcome,
      (db "SELECT 1" = .ok → Pg.test db = .ok true) ∧
      (∀ e, db "SELECT 1" = .err e →
        Pg.test db = .error ("Connection test failed: " ++ e)) ∧
      Pg.test db ≠ .ok false := by
  intro db
  refine ⟨?_, ?_, ?_⟩
  · intro h
    simp [Pg.test, h]
  · intro e h
    simp [Pg.test, h]
  · cases hq : db "SELECT 1" <;> simp [Pg.test, hq]

/-- Claim C5, witness: the two outcomes at concrete query results. -/
theorem claim_C5_test_roundtrip_witness :
    Pg.test (fun _ => .ok) = .ok true ∧
    Pg.test (fun _ => .err "connection refused")
      = .error ("Connection test failed: " ++ "connection refused") :=
  ⟨(claim_C5_test_roundtrip (fun _ => .ok)).1 rfl,
    (claim_C5_test_roundtrip (fun _ => .err "connection refused")).2.1
      "connection refused" rfl⟩

/-- Claim C6: `restore(source)` is exactly
`restore_with_options(source, drop_database_first: true)` — the simple
restore entry point defaults to dropping and recreating the target
database, for every configuration, environment and source stream. -/
theorem claim_C6_restore_defaults_to_drop :
    ∀ (cfg : Pg.DatabaseConfig) (env : Pg.RestoreEnv) (source : List Nat),
      Pg.restore cfg env source
        = Pg.restore_with_options cfg env source { drop_database_first := true } :=
  fun _ _ _ => rfl

/-- Claim C7: when a tunnel is attached, `PostgreSqlConnection::new`
rewrites the effective host to `localhost` and the effective port to the
tunnel's local port, leaves database name, username and password unchanged,
and retains the original remote host and port only inside the tunnel;
without a tunnel the configuration is unchanged. -/
theorem claim_C7_tunnel_rewrite :
    ∀ (config : Pg.DatabaseConfig) (p : Nat),
      (∀ t, config.ssh_tunnel = some t →
        (Pg.newEffectiveConfig config p).1.host = "localhost" ∧
        (Pg.newEffectiveConfig config p).1.port = p ∧
        (Pg.newEffectiveConfig config p).1.database = config.database ∧
        (Pg.newEffectiveConfig config p).1.username = config.username ∧
        (Pg.newEffectiveConfig config p).1.password = config.password ∧
        (Pg.newEffectiveConfig config p).2
          = some ⟨config.host, config.port, p⟩) ∧
      (config.ssh_tunnel = none →
        Pg.newEffectiveConfig config p = (config, none)) := by
  intro config p
  constructor
  · intro t ht
    simp [Pg.newEffectiveConfig, ht]
  · intro h
    simp [Pg.newEffectiveConfig, h]

/-- Claim C7, witness: both branches at concrete configurations. -/
theorem claim_C7_tunnel_rewrite_witness :
    ((Pg.newEffectiveConfig
        ⟨"db.remote", 5432, "mydb", "u", some "pw",
          some ⟨"bastion", "sshu", none⟩⟩ 50000).1.host = "localhost" ∧
      (Pg.newEffectiveConfig
        ⟨"db.remote", 5432, "mydb", "u", some "pw",
          some ⟨"bastion", "sshu", none⟩⟩ 50000).1.port = 50000 ∧
      (Pg.newEffectiveConfig
        ⟨"db.remote", 5432, "mydb", "u", some "pw",
          some ⟨"bastion", "sshu", none⟩⟩ 50000).1.database = "mydb" ∧
      (Pg.newEffectiveConfig
        ⟨"db.remote", 5432, "mydb", "u", some "pw",
          some ⟨"bastion", "sshu", none⟩⟩ 50000).1.username = "u" ∧
      (Pg.newEffectiveConfig
        ⟨"db.remote", 5432, "mydb", "u", some "pw",
          some ⟨"bastion", "sshu", none⟩⟩ 50000).1.password = some "pw" ∧
      (Pg.newEffectiveConfig
        ⟨"db.remote", 5432, "mydb", "u", some "pw",
          some ⟨"bastion", "sshu", none⟩⟩ 50000).2
        = some ⟨"db.remote", 5432, 50000⟩) ∧
    Pg.newEffectiveConfig ⟨"h", 5432, "d", "u", none, none⟩ 9
      = (⟨"h", 5432, "d", "u", none, none⟩, none) :=
  ⟨(claim_C7_tunnel_rewrite
      ⟨"db.remote", 5432, "mydb", "u", some "pw",
        some ⟨"bastion", "sshu", none⟩⟩ 50000).1
      ⟨"bastion", "sshu", none⟩ rfl,
    (claim_C7_tunnel_rewrite ⟨"h", 5432, "d", "u", none, none⟩ 9).2 rfl⟩

/-- Claim C8: `backup` drains the dump child's stdout into the sink in
fixed 16 KiB chunks until end-of-stream: every written chunk is at most
16384 bytes; with no failure and a zero exit, every chunk is written and
their concatenation is exactly the child's output; a failing sink write
aborts immediately with the typed write error, only the preceding chunks
having been written (stderr and the exit status are never consulted); a
non-zero exit yields the full captured stderr as the failure detail; and
`backup` succeeds exactly when the spawn and every read and write
succeeded and the child exited zero. -/
theorem claim_C8_backup_streaming :
    ∀ env : Pg.BackupEnv,
      (∀ c ∈ (Pg.backup env).2, c.length ≤ 16384) ∧
      (env.spawn_err = none → env.sink_fail = none → env.read_err = none →
        env.exit_success = true →
        Pg.backup env = (.ok (), Pg.chunk16384 env.stream) ∧
        (Pg.chunk16384 env.stream).flatten = env.stream) ∧
      (∀ j e, env.spawn_err = none → env.sink_fail = some (j, e) →
        j < (Pg.chunk16384 env.stream).length →
        Pg.backup env = (.error ("Failed to write backup data: " ++ e),
          (Pg.chunk16384 env.stream).take j)) ∧
      (env.spawn_err = none → env.sink_fail = none → env.read_err = none →
        env.exit_success = false →
        Pg.backup env = (.error ("pg_dump failed: " ++ env.stderr),
          Pg.chunk16384 env.stream)) ∧
      ((Pg.backup env).1 = .ok () ↔
        env.spawn_err = none ∧ env.read_err = none ∧ env.exit_success = true ∧
        ∀ j e, env.sink_fail = some (j, e) →
          (Pg.chunk16384 env.stream).length ≤ j) := by
  intro env
  obtain ⟨sp, st, re, sf, ex, er⟩ := env
  dsimp only
  refine ⟨?_, ?_, ?_, ?_, ?_⟩
  · intro c hc
    cases sp with
    | some e => simp [Pg.backup] at hc
    | none =>
      have hsub : (Pg.backup ⟨none, st, re, sf, ex, er⟩).2
          ⊆ Pg.chunk16384 st := by
        simp only [Pg.backup]
        cases sf with
        | none =>
          rw [Pg.drainBackup_none]
          cases re with
          | some e => exact List.Subset.refl _
          | none => cases ex <;> exact List.Subset.refl _
        | some jf =>
          obtain ⟨j, e⟩ := jf
          rw [Pg.drainBackup_some_zero]
          by_cases hj : j < (Pg.chunk16384 st).length
          · rw [if_pos hj]
            exact List.take_subset _ _
          · rw [if_neg hj]
            cases re with
            | some e2 => exact List.Subset.refl _
            | none => cases ex <;> exact List.Subset.refl _
      exact Pg.chunk16384_mem_length (hsub hc)
  · intro h1 h2 h3 h4
    subst h1; subst h2; subst h3; subst h4
    refine ⟨?_, Pg.chunk16384_flatten st⟩
    simp [Pg.backup, Pg.drainBackup_none]
  · intro j e h1 h2 hj
    subst h1; subst h2
    simp only [Pg.backup, Pg.drainBackup_some_zero, if_pos hj]
  · intro h1 h2 h3 h4
    subst h1; subst h2; subst h3; subst h4
    simp [Pg.backup, Pg.drainBackup_none]
  · constructor
    · intro h
      cases sp with
      | some e => simp [Pg.backup] at h
      | none =>
        simp only [Pg.backup] at h
        cases sf with
        | none =>
          rw [Pg.drainBackup_none] at h
          cases re with
          | some e => simp at h
          | none =>
            cases ex with
            | true => exact ⟨rfl, rfl, rfl, fun j e hje => by cases hje⟩
            | false => simp at h
        | some jf =>
          obtain ⟨j, e⟩ := jf
          rw [Pg.drainBackup_some_zero] at h
          by_cases hj : j < (Pg.chunk16384 st).length
          · rw [if_pos hj] at h
            simp at h
          · rw [if_neg hj] at h
            cases re with
            | some e2 => simp at h
            | none =>
              cases ex with
              | true =>
                refine ⟨rfl, rfl, rfl, fun j2 e2 hje => ?_⟩
                cases hje
                omega
              | false => simp at h
    · rintro ⟨h1, h2, h3, h4⟩
      subst h1; subst h2; subst h3
      simp only [Pg.backup]
      cases sf with
      | none =>
        rw [Pg.drainBackup_none]
        simp
      | some jf =>
        obtain ⟨j, e⟩ := jf
        rw [Pg.drainBackup_some_zero, if_neg (by have := h4 j e rfl; omega)]
        simp

/-- Claim C8, witness: concrete runs exercising the clean path, the
aborting sink write, the non-zero exit, and the success criterion. -/
theorem claim_C8_backup_streaming_witness :
    (Pg.backup ⟨none, [1, 2, 3], none, none, true, ""⟩
        = (.ok (), Pg.chunk16384 [1, 2, 3]) ∧
      (Pg.chunk16384 [1, 2, 3]).flatten = [1, 2, 3]) ∧
    Pg.backup ⟨none, [1, 2, 3], none, some (0, "broken pipe"), true, ""⟩
      = (.error ("Failed to write backup data: " ++ "broken pipe"),
        (Pg.chunk16384 [1, 2, 3]).take 0) ∧
    Pg.backup ⟨none, [], none, none, false, "boom"⟩
      = (.error ("pg_dump failed: " ++ "boom"), Pg.chunk16384 []) ∧
    (Pg.backup ⟨none, [1, 2, 3], none, none, true, ""⟩).1 = .ok () :=
  ⟨(claim_C8_backup_streaming ⟨none, [1, 2, 3], none, none, true, ""⟩).2.1
      rfl rfl rfl rfl,
    (claim_C8_backup_streaming
      ⟨none, [1, 2, 3], none, some (0, "broken pipe"), true, ""⟩).2.2.1
      0 "broken pipe" rfl rfl (by decide),
    (claim_C8_backup_streaming ⟨none, [], none, none, false, "boom"⟩).2.2.2.1
      rfl rfl rfl rfl,
    (claim_C8_backup_streaming ⟨none, [1, 2, 3], none, none, true, ""⟩).2.2.2.2.mpr
      ⟨rfl, rfl, rfl, fun j e hje => by cases hje⟩⟩

/-- Claim C9: `PostgreSqlConnection::new` opens its client pool against the
fixed maintenance database `postgres`, never against the configured target
database: the connect options' database is `postgres` and the options are
unchanged under any change of the configured database name (so pool
operations such as `get_metadata` and `test` are independent of whether the
target database exists). -/
theorem claim_C9_maintenance_database :
    ∀ config : Pg.DatabaseConfig,
      (Pg.mkConnectOptions config).database = "postgres" ∧
      ∀ d, Pg.mkConnectOptions { config with database := d }
        = Pg.mkConnectOptions config :=
  fun _ => ⟨rfl, fun _ => rfl⟩

/-- Claim C10: `restore_with_options` builds its administrative SQL command
texts by embedding the configured database name verbatim, with no escaping
of quote characters — each builder is literally a fixed head, the raw name,
and a fixed tail — and for the database name `my"db`, which contains a
double quote, the constructed `CREATE DATABASE` text does not delimit that
name as a single quoted identifier (it differs from the command built with
the canonical quoted-identifier spelling, which doubles interior quotes). -/
theorem claim_C10_verbatim_database_name :
    (∀ name, Pg.terminate_cmd_text name =
      "SELECT pg_terminate_backend(pg_stat_activity.pid) \n                FROM pg_stat_activity \n                WHERE pg_stat_activity.datname = '"
        ++ name ++ "' \n                AND pid <> pg_backend_pid();") ∧
    (∀ name, Pg.drop_cmd_text name
      = "DROP DATABASE IF EXISTS \"" ++ name ++ "\";") ∧
    (∀ name, Pg.create_cmd_text name
      = "CREATE DATABASE \"" ++ name ++ "\";") ∧
    (List.contains (String.toList "my\"db") '"' = true ∧
      Pg.create_cmd_text "my\"db"
        ≠ "CREATE DATABASE " ++ Pg.quoteIdent "my\"db" ++ ";") :=
  ⟨fun _ => rfl, fun _ => rfl, fun _ => rfl, by decide, by decide⟩

end Dbkp
